import Mathlib

/-!
Shallow embedding of the crypto data-aggregation layer of TradingAgentsFork
(`tradingagents/dataflows/coingecko_utils.py`, `onchain_utils.py`,
`cryptonews_utils.py`) together with proofs about the embedded operations.

Python strings are modelled as lists of Unicode code points (`PyString`);
`str.upper` / `str.lower` are modelled on the ASCII range (the range all
ticker symbols and keywords in this code live in).  Python dicts whose shape
is data-dependent are modelled as association lists (`PyDict`); dicts that
the code always builds with a fixed literal shape are modelled as structures.
JSON numbers are modelled as `Int` / `ℚ`; fallible operations return
`Except PyString` values, where `Except.error` models a raised exception.
-/

namespace TradingAgentsCrypto

/-! ## Python string model -/

/-- A Python string, as its list of Unicode code points. -/
abbrev PyString := List Nat

/-- Embed a Lean string literal as a `PyString`. -/
def pyStr (s : String) : PyString := s.data.map Char.toNat

/-- The `str.upper` on one code point (ASCII range; other points unchanged). -/
def upperChar (c : Nat) : Nat := if 97 ≤ c ∧ c ≤ 122 then c - 32 else c

/-- The `str.lower` on one code point (ASCII range; other points unchanged). -/
def lowerChar (c : Nat) : Nat := if 65 ≤ c ∧ c ≤ 90 then c + 32 else c

/-- Python `s.upper()`. -/
def pyUpper (s : PyString) : PyString := s.map upperChar

/-- Python `s.lower()`. -/
def pyLower (s : PyString) : PyString := s.map lowerChar

/-- Python `needle in hay` substring test. -/
def containsSub (hay needle : PyString) : Bool :=
  needle.isPrefixOf hay ||
    match hay with
    | [] => false
    | _ :: t => containsSub t needle

/-- Python `<` on strings: lexicographic order on code points. -/
def lexLt : PyString → PyString → Bool
  | [], [] => false
  | [], _ :: _ => true
  | _ :: _, [] => false
  | a :: as, b :: bs => a < b || (a == b && lexLt as bs)

/-- Python `<=` on strings. -/
def lexLe (a b : PyString) : Bool := !(lexLt b a)

theorem lowerChar_upperChar (c : Nat) : lowerChar (upperChar c) = lowerChar c := by
  unfold lowerChar upperChar
  split_ifs <;> omega

theorem upperChar_upperChar (c : Nat) : upperChar (upperChar c) = upperChar c := by
  unfold upperChar
  split_ifs <;> omega

theorem upperChar_lowerChar (c : Nat) : upperChar (lowerChar c) = upperChar c := by
  unfold upperChar lowerChar
  split_ifs <;> omega

theorem pyLower_pyUpper (s : PyString) : pyLower (pyUpper s) = pyLower s := by
  unfold pyLower pyUpper
  rw [List.map_map]
  exact List.map_congr_left fun c _ => lowerChar_upperChar c

theorem pyUpper_pyUpper (s : PyString) : pyUpper (pyUpper s) = pyUpper s := by
  unfold pyUpper
  rw [List.map_map]
  exact List.map_congr_left fun c _ => upperChar_upperChar c

theorem pyUpper_pyLower (s : PyString) : pyUpper (pyLower s) = pyUpper s := by
  unfold pyUpper pyLower
  rw [List.map_map]
  exact List.map_congr_left fun c _ => upperChar_lowerChar c

theorem containsSub_of_isPrefixOf (hay needle : PyString)
    (h : needle.isPrefixOf hay = true) : containsSub hay needle = true := by
  unfold containsSub
  cases hay <;> simp_all

theorem containsSub_of_infix {hay needle : PyString}
    (h : needle <:+: hay) : containsSub hay needle = true := by
  obtain ⟨s, t, rfl⟩ := h
  induction s with
  | nil =>
    exact containsSub_of_isPrefixOf _ _
      (List.isPrefixOf_iff_prefix.mpr ⟨t, by simp⟩)
  | cons c cs ih =>
    unfold containsSub
    cases h' : cs ++ needle ++ t <;> simp_all [containsSub]

/-! ## `coingecko_utils.py`: `CoinGeckoUtils` -/

/-- The static `SYMBOL_TO_ID` table (`coingecko_utils.py` lines 20-41). -/
def SYMBOL_TO_ID : List (PyString × PyString) :=
  [ (pyStr "BTC", pyStr "bitcoin"),
    (pyStr "ETH", pyStr "ethereum"),
    (pyStr "SOL", pyStr "solana"),
    (pyStr "MATIC", pyStr "matic-network"),
    (pyStr "AVAX", pyStr "avalanche-2"),
    (pyStr "BNB", pyStr "binancecoin"),
    (pyStr "ADA", pyStr "cardano"),
    (pyStr "DOT", pyStr "polkadot"),
    (pyStr "LINK", pyStr "chainlink"),
    (pyStr "UNI", pyStr "uniswap"),
    (pyStr "ATOM", pyStr "cosmos"),
    (pyStr "XRP", pyStr "ripple"),
    (pyStr "DOGE", pyStr "dogecoin"),
    (pyStr "SHIB", pyStr "shiba-inu"),
    (pyStr "LTC", pyStr "litecoin"),
    (pyStr "BCH", pyStr "bitcoin-cash"),
    (pyStr "NEAR", pyStr "near"),
    (pyStr "APT", pyStr "aptos"),
    (pyStr "ARB", pyStr "arbitrum"),
    (pyStr "OP", pyStr "optimism") ]

/-- Response of the `/search` endpoint, reduced to what `get_coin_id` reads:
`none` models a failed request (empty dict) or a payload without a usable
`"coins"` key; `some ids` models `[c["id"] for c in data["coins"]]`. -/
abbrev SearchResp := Option (List PyString)

/-- The `CoinGeckoUtils.get_coin_id` (lines 89-112).  `search` is the oracle for
the one possible `/search` network request; the second component of the
result counts the network requests issued. -/
def get_coin_id (search : PyString → SearchResp) (symbol : PyString) :
    PyString × Nat :=
  let symbolU := pyUpper symbol
  match SYMBOL_TO_ID.lookup symbolU with
  | some cid => (cid, 0)
  | none =>
    match search symbolU with
    | some (c :: _) => (c, 1)
    | some [] => (pyLower symbolU, 1)
    | none => (pyLower symbolU, 1)

/-- The `valid_days` list of `get_price_history` (line 134). -/
def valid_days : List Int := [1, 7, 14, 30, 90, 180, 365]

/-- Python `min(xs, key=f)` on a nonempty list: the first element whose key
is minimal (Python keeps the current minimum on ties). -/
def pyMinKey (f : Int → Nat) : List Int → Option Int
  | [] => none
  | x :: xs => some (xs.foldl (fun acc y => if f y < f acc then y else acc) x)

/-- The `days_param = min(valid_days, key=lambda x: abs(x - days))`
(`get_price_history`, line 135). -/
def days_param (days : Int) : Int :=
  (pyMinKey (fun x => (x - days).natAbs) valid_days).getD 0

/-- One OHLC candle row as produced from the `/coins/{id}/ohlc` payload. -/
structure CandleRow where
  timestamp : Int
  openP : ℚ
  high : ℚ
  low : ℚ
  close : ℚ
deriving DecidableEq

/-- One row of the merged OHLCV frame.  `volume = none` models a pandas
`NaN` produced by an unmatched left join. -/
structure OhlcvRow where
  timestamp : Int
  openP : ℚ
  high : ℚ
  low : ℚ
  close : ℚ
  volume : Option ℚ
deriving DecidableEq

/-- The `df.join(volume_df, how="left")` on the timestamp index: every candle row
is kept; a row with no matching volume timestamp gets a missing (`none`)
volume; a row with `k` matching volume rows is replicated `k` times. -/
def joinVolume (rows : List CandleRow) (vols : List (Int × ℚ)) :
    List OhlcvRow :=
  (rows.map (fun r =>
    match vols.filter (fun v => v.1 == r.timestamp) with
    | [] => [⟨r.timestamp, r.openP, r.high, r.low, r.close, none⟩]
    | ms => ms.map (fun m =>
        ⟨r.timestamp, r.openP, r.high, r.low, r.close, some m.2⟩))).flatten

/-- The volume-merge portion of `CoinGeckoUtils.get_price_history`
(lines 146-175).  `ohlcResp` is the `/ohlc` payload (`none` or `some []`
are falsy → empty frame); `volResp` is the `"total_volumes"` list of the
`market_chart` payload (`none`: request failed or key missing, which sets
the whole volume column to `0`). -/
def get_price_history (ohlcResp : Option (List CandleRow))
    (volResp : Option (List (Int × ℚ))) : List OhlcvRow :=
  match ohlcResp with
  | none => []
  | some [] => []
  | some rows =>
    match volResp with
    | some vols => joinVolume rows vols
    | none => rows.map (fun r =>
        ⟨r.timestamp, r.openP, r.high, r.low, r.close, some 0⟩)

theorem joinVolume_volume {rows : List CandleRow} {vols : List (Int × ℚ)}
    {r : OhlcvRow} (h : r ∈ joinVolume rows vols) :
    (∃ v ∈ vols, v.1 = r.timestamp ∧ r.volume = some v.2) ∨
    ((∀ v ∈ vols, v.1 ≠ r.timestamp) ∧ r.volume = none) := by
  unfold joinVolume at h
  rw [List.mem_flatten] at h
  obtain ⟨l, hl, hr⟩ := h
  rw [List.mem_map] at hl
  obtain ⟨c, _, rfl⟩ := hl
  rcases hfil : vols.filter (fun v => v.1 == c.timestamp) with _ | ⟨m, ms⟩
  · rw [hfil] at hr
    simp only [List.mem_singleton] at hr
    subst hr
    right
    refine ⟨fun v hv hveq => ?_, rfl⟩
    have h2 := List.filter_eq_nil_iff.mp hfil v hv
    simp only [beq_iff_eq] at h2
    exact h2 hveq
  · rw [hfil] at hr
    rw [List.mem_map] at hr
    obtain ⟨m', hm', rfl⟩ := hr
    left
    have hm'' : m' ∈ vols.filter (fun v => v.1 == c.timestamp) := hfil ▸ hm'
    rw [List.mem_filter] at hm''
    exact ⟨m', hm''.1, by simpa using hm''.2, rfl⟩

/-! ## Claim theorems: C6, C3, C7, C10 -/

set_option maxHeartbeats 1000000 in
/-- C6: for every integer `days`, the candle horizon `days_param days` sent
upstream is a member of the fixed set `{1, 7, 14, 30, 90, 180, 365}` and is
the member nearest to `days`, with ties broken toward the smaller value. -/
theorem claim_C6_days_param_nearest (days : Int) :
    days_param days ∈ valid_days ∧
    ∀ y ∈ valid_days,
      (days_param days - days).natAbs ≤ (y - days).natAbs ∧
      ((y - days).natAbs = (days_param days - days).natAbs →
        days_param days ≤ y) := by
  unfold days_param pyMinKey valid_days
  simp only [List.foldl, Option.getD_some, List.mem_cons, List.mem_singleton,
    List.not_mem_nil, or_false, forall_eq_or_imp, forall_eq]
  split_ifs <;> refine ⟨by omega, ?_⟩ <;>
    refine ⟨⟨?_, ?_⟩, ⟨?_, ?_⟩, ⟨?_, ?_⟩, ⟨?_, ?_⟩, ⟨?_, ?_⟩, ⟨?_, ?_⟩,
      ?_, ?_⟩ <;> omega

/-- Witness for C6 at `days = 4` (ties 1 vs 7, broken toward 1) and the
member `y = 7`. -/
theorem claim_C6_witness :
    (7 : Int) ∈ valid_days ∧
    (days_param 4 - 4).natAbs ≤ ((7 : Int) - 4).natAbs ∧
    (((7 : Int) - 4).natAbs = (days_param 4 - 4).natAbs →
      days_param 4 ≤ 7) :=
  ⟨by decide, (claim_C6_days_param_nearest 4).2 7 (by decide)⟩

/-- C3 as stated is false: in the OHLCV merge, a candle row whose timestamp
has no matching volume point gets a missing (`none`) volume, not zero.
Concretely, one candle at timestamp 1 merged against a volume list whose
only point is at timestamp 2 yields volume `none ≠ some 0`. -/
theorem claim_C3_counterexample :
    get_price_history (some [⟨1, 0, 0, 0, 0⟩]) (some [(2, 5)]) =
      [⟨1, 0, 0, 0, 0, none⟩] ∧
    ((⟨1, 0, 0, 0, 0, none⟩ : OhlcvRow).volume ≠ some 0) := by
  constructor
  · rfl
  · simp

/-- C3 amended: whenever the candle fetch succeeds, volume is merged by
timestamp with left-join semantics; a row with a matching volume point
carries that volume, a row with no matching point carries a missing
(`none`) volume, and the whole column is zero exactly when the separate
volume fetch fails. -/
theorem claim_C3_left_join :
    (∀ (candles : List CandleRow) (r : OhlcvRow),
        r ∈ get_price_history (some candles) none → r.volume = some 0) ∧
    (∀ (candles : List CandleRow) (vols : List (Int × ℚ)) (r : OhlcvRow),
        r ∈ get_price_history (some candles) (some vols) →
          (∃ v ∈ vols, v.1 = r.timestamp ∧ r.volume = some v.2) ∨
          ((∀ v ∈ vols, v.1 ≠ r.timestamp) ∧ r.volume = none)) := by
  constructor
  · intro candles r h
    match candles with
    | [] => simp [get_price_history] at h
    | c :: cs =>
      simp only [get_price_history, List.mem_map] at h
      obtain ⟨a, _, rfl⟩ := h
      rfl
  · intro candles vols r h
    match candles with
    | [] => simp [get_price_history] at h
    | c :: cs => exact joinVolume_volume h

/-- Witness for C3 amended: a failed volume fetch fills volume with zero. -/
theorem claim_C3_witness :
    (⟨1, 2, 3, 4, 5, some 0⟩ : OhlcvRow).volume = some 0 :=
  claim_C3_left_join.1 [⟨1, 2, 3, 4, 5⟩] ⟨1, 2, 3, 4, 5, some 0⟩ (by decide)

/-- C7: a ticker whose uppercase form is in the static table resolves from
the table with zero network requests; any other ticker issues exactly one
search request, returns the first match's ID when the search yields one,
and falls back to the lowercase ticker when it yields none. -/
theorem claim_C7_get_coin_id (search : PyString → SearchResp)
    (symbol : PyString) :
    (∀ cid, SYMBOL_TO_ID.lookup (pyUpper symbol) = some cid →
        get_coin_id search symbol = (cid, 0)) ∧
    (SYMBOL_TO_ID.lookup (pyUpper symbol) = none →
      (get_coin_id search symbol).2 = 1 ∧
      (∀ c rest, search (pyUpper symbol) = some (c :: rest) →
          (get_coin_id search symbol).1 = c) ∧
      ((search (pyUpper symbol) = some [] ∨ search (pyUpper symbol) = none) →
          (get_coin_id search symbol).1 = pyLower symbol)) := by
  simp only [get_coin_id]
  constructor
  · intro cid hcid
    rw [hcid]
  · intro hmiss
    rw [hmiss]
    refine ⟨?_, ?_, ?_⟩
    · rcases hs : search (pyUpper symbol) with _ | ⟨_ | ⟨c, rest⟩⟩ <;> rfl
    · intro c rest hs
      rw [hs]
    · rintro (hs | hs) <;> rw [hs] <;> exact pyLower_pyUpper symbol

/-- Witness for C7: "BTC" resolves from the table without a request, and an
unmapped "FOO" with a failing search falls back to "foo" after one
request. -/
theorem claim_C7_witness :
    get_coin_id (fun _ => none) (pyStr "BTC") = (pyStr "bitcoin", 0) ∧
    (get_coin_id (fun _ => none) (pyStr "FOO")).2 = 1 ∧
    (get_coin_id (fun _ => none) (pyStr "FOO")).1 = pyLower (pyStr "FOO") :=
  ⟨(claim_C7_get_coin_id (fun _ => none) (pyStr "BTC")).1 (pyStr "bitcoin")
      (by decide),
    ((claim_C7_get_coin_id (fun _ => none) (pyStr "FOO")).2 (by decide)).1,
    ((claim_C7_get_coin_id (fun _ => none) (pyStr "FOO")).2 (by decide)).2.2
      (Or.inr rfl)⟩

/-- C10: symbol resolution is case-insensitive — for every search oracle and
every input string, `get_coin_id` gives the same result on the string, its
uppercase form and its lowercase form, and when the table misses and the
search yields nothing the fallback is the lowercased ticker. -/
theorem claim_C10_case_insensitive (search : PyString → SearchResp)
    (s : PyString) :
    get_coin_id search s = get_coin_id search (pyUpper s) ∧
    get_coin_id search s = get_coin_id search (pyLower s) ∧
    (SYMBOL_TO_ID.lookup (pyUpper s) = none → search (pyUpper s) = none →
      (get_coin_id search s).1 = pyLower s) := by
  refine ⟨?_, ?_, ?_⟩
  · simp only [get_coin_id]
    rw [pyUpper_pyUpper, pyLower_pyUpper]
  · simp only [get_coin_id]
    rw [pyUpper_pyLower]
  · intro hmiss hs
    simp only [get_coin_id]
    rw [hmiss, hs]
    exact pyLower_pyUpper s

/-- Witness for C10 at a mixed-case unmapped ticker with an empty search. -/
theorem claim_C10_witness :
    get_coin_id (fun _ => none) (pyStr "Foo") =
      get_coin_id (fun _ => none) (pyUpper (pyStr "Foo")) ∧
    (get_coin_id (fun _ => none) (pyStr "Foo")).1 = pyLower (pyStr "Foo") :=
  ⟨(claim_C10_case_insensitive (fun _ => none) (pyStr "Foo")).1,
    (claim_C10_case_insensitive (fun _ => none) (pyStr "Foo")).2.2
      (by decide) rfl⟩

/-! ## `cryptonews_utils.py`: articles and the regulatory filter -/

/-- A normalized news article, as built by the per-source fetchers.
Articles from the key-gated aggregator carry no `summary` key; since every
use site reads it through `.get("summary", "")`, that absence is modelled
as the empty string. -/
structure Article where
  title : PyString := []
  url : PyString := []
  source : PyString := []
  published_at : PyString := []
  summary : PyString := []
deriving DecidableEq

/-- The `regulatory_keywords` list of `get_regulatory_news`
(`cryptonews_utils.py` lines 387-391). -/
def regulatory_keywords : List PyString :=
  [ pyStr "sec", pyStr "regulation", pyStr "regulatory", pyStr "ban",
    pyStr "legal", pyStr "lawsuit", pyStr "compliance", pyStr "government",
    pyStr "legislation", pyStr "policy", pyStr "etf", pyStr "securities",
    pyStr "cftc", pyStr "congress", pyStr "senate", pyStr "court" ]

/-- The keyword-filter loop of `CryptoNewsUtils.get_regulatory_news`
(lines 393-402): keep an article when any keyword occurs in its lowercased
title or lowercased summary. -/
def regulatoryFilterLoop (all_news : List Article) : List Article :=
  all_news.filter (fun a =>
    regulatory_keywords.any (fun k =>
      containsSub (pyLower a.title) k || containsSub (pyLower a.summary) k))

theorem lexLt_asymm : ∀ a b : PyString, lexLt a b = true → lexLt b a = false
  | [], [] => by simp [lexLt]
  | [], _ :: _ => by simp [lexLt]
  | _ :: _, [] => by simp [lexLt]
  | a :: as, b :: bs => by
    simp only [lexLt, Bool.or_eq_true, Bool.and_eq_true, beq_iff_eq,
      decide_eq_true_eq, Bool.or_eq_false_iff, Bool.and_eq_false_iff]
    rintro (h | ⟨rfl, h⟩)
    · constructor
      · simp; omega
      · left; simp; omega
    · exact ⟨by simp, Or.inr (lexLt_asymm as bs h)⟩

theorem lexLt_trichot : ∀ a b : PyString,
    lexLt a b = true ∨ a = b ∨ lexLt b a = true
  | [], [] => by simp [lexLt]
  | [], _ :: _ => by simp [lexLt]
  | _ :: _, [] => by simp [lexLt]
  | a :: as, b :: bs => by
    rcases Nat.lt_trichotomy a b with h | rfl | h
    · exact Or.inl (by simp [lexLt]; omega)
    · rcases lexLt_trichot as bs with h | rfl | h
      · exact Or.inl (by simp [lexLt, h])
      · exact Or.inr (Or.inl rfl)
      · exact Or.inr (Or.inr (by simp [lexLt, h]))
    · exact Or.inr (Or.inr (by simp [lexLt]; omega))

theorem lexLt_trans : ∀ a b c : PyString,
    lexLt a b = true → lexLt b c = true → lexLt a c = true
  | [], [], _ :: _ => by simp [lexLt]
  | [], _ :: _, _ :: _ => by simp [lexLt]
  | [], b, [] => by
    intro h1 h2
    cases b with
    | nil => exact h2
    | cons x xs => simp [lexLt] at h2
  | _ :: _, [], _ => by simp [lexLt]
  | _ :: _, _ :: _, [] => by simp [lexLt]
  | a :: as, b :: bs, c :: cs => by
    simp only [lexLt, Bool.or_eq_true, Bool.and_eq_true, beq_iff_eq,
      decide_eq_true_eq]
    rintro (h1 | ⟨rfl, h1⟩) (h2 | ⟨rfl, h2⟩)
    · left; omega
    · left; exact h1
    · left; exact h2
    · right; exact ⟨rfl, lexLt_trans as bs cs h1 h2⟩

theorem lexLe_total (a b : PyString) : lexLe a b = true ∨ lexLe b a = true := by
  unfold lexLe
  rcases h : lexLt b a with - | -
  · left; rfl
  · right; simp [lexLt_asymm b a h]

theorem lexLe_trans {a b c : PyString} (h1 : lexLe a b = true)
    (h2 : lexLe b c = true) : lexLe a c = true := by
  unfold lexLe at *
  simp only [Bool.not_eq_true'] at *
  by_contra hca
  simp only [Bool.not_eq_false] at hca
  rcases lexLt_trichot c b with h | rfl | h
  · exact absurd h (by simp [h2])
  · exact absurd hca (by simp [h1])
  · exact absurd (lexLt_trans b c a h hca) (by simp [h1])

/-- One raw entry of an RSS feed, reduced to the keys the fetchers read. -/
structure FeedEntry where
  title : Option PyString := none
  link : Option PyString := none
  published : Option PyString := none
  summary : Option PyString := none
deriving DecidableEq

/-- Common body of the five RSS fetchers (`get_cointelegraph_news`,
`get_decrypt_news`, `get_coindesk_news`, `get_theblock_news`,
`get_bitcoinmagazine_news`, `cryptonews_utils.py` lines 108-256, identical
up to URL and source name): take the first `limit` entries and normalize
them; `resp = none` models the `except` branch (any parse error yields
`[]`). -/
def rssArticles (sourceName : PyString) (resp : Option (List FeedEntry))
    (limit : Nat) : List Article :=
  match resp with
  | none => []
  | some entries =>
    (entries.take limit).map (fun e =>
      { title := e.title.getD [], url := e.link.getD [],
        source := sourceName, published_at := e.published.getD [],
        summary := e.summary.getD [] })

/-- The `CryptoNewsUtils.get_cointelegraph_news` (lines 108-136). -/
def get_cointelegraph_news (resp : Option (List FeedEntry)) (limit : Nat) :
    List Article :=
  rssArticles (pyStr "CoinTelegraph") resp limit

/-- The `CryptoNewsUtils.get_decrypt_news` (lines 138-166). -/
def get_decrypt_news (resp : Option (List FeedEntry)) (limit : Nat) :
    List Article :=
  rssArticles (pyStr "Decrypt") resp limit

/-- The `CryptoNewsUtils.get_coindesk_news` (lines 168-196). -/
def get_coindesk_news (resp : Option (List FeedEntry)) (limit : Nat) :
    List Article :=
  rssArticles (pyStr "CoinDesk") resp limit

/-- The `CryptoNewsUtils.get_theblock_news` (lines 198-226). -/
def get_theblock_news (resp : Option (List FeedEntry)) (limit : Nat) :
    List Article :=
  rssArticles (pyStr "The Block") resp limit

/-- The `CryptoNewsUtils.get_bitcoinmagazine_news` (lines 228-256). -/
def get_bitcoinmagazine_news (resp : Option (List FeedEntry)) (limit : Nat) :
    List Article :=
  rssArticles (pyStr "Bitcoin Magazine") resp limit

/-- One item of the key-gated aggregator's `"results"` payload, reduced to
the keys that survive into the claim-relevant `Article` fields (the vote,
kind, domain and currency fields are carried along unchanged by the code
and never read by aggregation, sorting or filtering). -/
structure CPItem where
  title : Option PyString := none
  url : Option PyString := none
  source_title : Option PyString := none
  published_at : Option PyString := none
deriving DecidableEq

/-- The `CryptoNewsUtils.get_cryptopanic_news` (lines 53-104): `[]` without a
credential; `resp = none` models a failed request or a payload without
`"results"`; otherwise the first `limit` items, normalized.  These dicts
carry no `"summary"` key, which every reader accesses via
`.get("summary", "")`, modelled as the empty string. -/
def get_cryptopanic_news (hasKey : Bool) (resp : Option (List CPItem))
    (limit : Nat) : List Article :=
  if !hasKey then []
  else
    match resp with
    | none => []
    | some items =>
      (items.take limit).map (fun it =>
        { title := it.title.getD [], url := it.url.getD [],
          source := it.source_title.getD [],
          published_at := it.published_at.getD [], summary := [] })

/-- The sort order of `all_news.sort(key=lambda x: x.get("published_at",
""), reverse=True)`: `a` precedes `b` when `a`'s raw timestamp string is
lexicographically no smaller. -/
def newsDescLe (a b : Article) : Prop :=
  lexLe b.published_at a.published_at = true

instance : DecidableRel newsDescLe := fun _ _ => decEq _ _

/-- The `CryptoNewsUtils.get_all_crypto_news` (lines 260-310): concatenate the
per-source article lists (the aggregator source only with a credential,
the primary-asset feed only for symbol "BTC"), then stably sort newest
first by the raw `published_at` string (Python's stable `list.sort` with
`reverse=True`, modelled by stable insertion sort under `newsDescLe`). -/
def get_all_crypto_news (hasCPKey : Bool) (cpResp : Option (List CPItem))
    (ctResp dcResp cdResp tbResp bmResp : Option (List FeedEntry))
    (symbol : Option PyString) (max_per_source : Nat) : List Article :=
  let all_news :=
    (if hasCPKey then get_cryptopanic_news hasCPKey cpResp max_per_source
     else [])
    ++ get_cointelegraph_news ctResp max_per_source
    ++ get_decrypt_news dcResp max_per_source
    ++ get_coindesk_news cdResp max_per_source
    ++ get_theblock_news tbResp max_per_source
    ++ (match symbol with
        | some s =>
          if s ≠ [] ∧ pyUpper s = pyStr "BTC"
          then get_bitcoinmagazine_news bmResp max_per_source else []
        | none => [])
  List.insertionSort newsDescLe all_news

/-- A decimal digit's value. -/
def digitVal (c : Nat) : Option Nat :=
  if 48 ≤ c ∧ c ≤ 57 then some (c - 48) else none

/-- Two decimal digits. -/
def twoDigits (a b : Nat) : Option Nat := do
  let x ← digitVal a
  let y ← digitVal b
  pure (10 * x + y)

/-- Four decimal digits. -/
def fourDigits (a b c d : Nat) : Option Nat := do
  let x ← twoDigits a b
  let y ← twoDigits c d
  pure (100 * x + y)

/-- An English three-letter month abbreviation's number. -/
def monthNum (m : PyString) : Option Nat :=
  if m = pyStr "Jan" then some 1
  else if m = pyStr "Feb" then some 2
  else if m = pyStr "Mar" then some 3
  else if m = pyStr "Apr" then some 4
  else if m = pyStr "May" then some 5
  else if m = pyStr "Jun" then some 6
  else if m = pyStr "Jul" then some 7
  else if m = pyStr "Aug" then some 8
  else if m = pyStr "Sep" then some 9
  else if m = pyStr "Oct" then some 10
  else if m = pyStr "Nov" then some 11
  else if m = pyStr "Dec" then some 12
  else none

/-- Modelled from the spec: the "parsed publication timestamp" of §8's
news-aggregation property, for the two timestamp shapes the sources emit —
RFC-822 feed dates (`"Www, DD Mon YYYY HH:MM:SS ..."`); the ISO shape of
the aggregator API is lexicographically ordered already, so the
counterexample needs only this one.  The result is the chronologically
ordered key `((YYYY·100+MM)·100+DD)·10^6 + HH·10^4 + MM·10^2 + SS`;
an unparsable string gives `none`. -/
def specParsedTimestamp (s : PyString) : Option Nat :=
  match s with
  | _ :: _ :: _ :: 44 :: 32 :: d1 :: d2 :: 32 :: m1 :: m2 :: m3 :: 32 ::
      y1 :: y2 :: y3 :: y4 :: 32 :: h1 :: h2 :: 58 :: n1 :: n2 :: 58 ::
      s1 :: s2 :: _ => do
    let dd ← twoDigits d1 d2
    let mo ← monthNum [m1, m2, m3]
    let yy ← fourDigits y1 y2 y3 y4
    let hh ← twoDigits h1 h2
    let mm ← twoDigits n1 n2
    let ss ← twoDigits s1 s2
    pure (((yy * 100 + mo) * 100 + dd) * 1000000 + hh * 10000 + mm * 100 + ss)
  | _ => none

/-! ## `_rate_limit` (onchain_utils.py lines 37-46, cryptonews_utils.py
lines 28-37: identical code) -/

/-- Mutable state read and written by `_rate_limit`, plus an abstract wall
clock giving the value of the next `time.time()` call. -/
structure RLState where
  /-- the `self.last_request_time` dict; read only through `dictGetQ`. -/
  last_request_time : List (PyString × ℚ)
  /-- The `self.rate_limit_delay`. -/
  rate_limit_delay : ℚ
  /-- current wall-clock time. -/
  clock : ℚ

/-- The `self.last_request_time.get(api_name, 0)`. -/
def dictGetQ (d : List (PyString × ℚ)) (k : PyString) : ℚ :=
  (d.lookup k).getD 0

/-- The `self.last_request_time[api_name] = v` (first-match association-list
update; only ever observed through `dictGetQ`). -/
def dictSetQ (d : List (PyString × ℚ)) (k : PyString) (v : ℚ) :
    List (PyString × ℚ) :=
  (k, v) :: d

/-- The `_rate_limit(api_name)`: sleep for the remainder of the minimum
interval when called too soon after the previous call with the same tag,
then store the post-sleep `time.time()` into the per-tag dict.  `ε ≥ 0`
models extra real time elapsing beyond the requested sleep (scheduler
slack; `0` for an ideal clock).  The second component is the dispatch
time, the value stored into `last_request_time[api_name]` immediately
before the request goes out. -/
def rate_limit (s : RLState) (api_name : PyString) (ε : ℚ) : RLState × ℚ :=
  let current_time := s.clock
  let last_time := dictGetQ s.last_request_time api_name
  let time_since_last := current_time - last_time
  let sleep_amount :=
    if time_since_last < s.rate_limit_delay
    then s.rate_limit_delay - time_since_last else 0
  let dispatch := current_time + sleep_amount + ε
  ({ s with
      last_request_time := dictSetQ s.last_request_time api_name dispatch,
      clock := dispatch },
   dispatch)

theorem rssArticles_length_le (n : PyString) (resp : Option (List FeedEntry))
    (limit : Nat) : (rssArticles n resp limit).length ≤ limit := by
  cases resp with
  | none => simp [rssArticles]
  | some l =>
    simp only [rssArticles, List.length_map, List.length_take]
    omega

theorem get_cryptopanic_news_length_le (hasKey : Bool)
    (resp : Option (List CPItem)) (limit : Nat) :
    (get_cryptopanic_news hasKey resp limit).length ≤ limit := by
  unfold get_cryptopanic_news
  split
  · simp
  · cases resp with
    | none => simp
    | some l =>
      simp only [List.length_map, List.length_take]
      omega

/-! ## Python values, dicts and the string formatting used by the
summary builders -/

/-- A Python value as stored in the heterogeneous dicts these clients
build.  Floats are modelled as exact rationals (the JSON payloads carry
decimal literals; binary-float representation error is outside the
model). -/
inductive PyVal where
  | int (n : Int)
  | rat (q : ℚ)
  | str (s : PyString)
  | dict (entries : List (PyString × PyVal))

/-- A Python dict with string keys, as an association list. -/
abbrev PyDict := List (PyString × PyVal)

/-- Python `d.get(k, default)`. -/
def pyGet (d : PyDict) (k : PyString) (default : PyVal) : PyVal :=
  (d.lookup k).getD default

/-- Python `d[k]`: raises `KeyError` on a missing key. -/
def getItem (d : PyDict) (k : PyString) : Except PyString PyVal :=
  match d.lookup k with
  | some v => pure v
  | none => Except.error (pyStr "KeyError: " ++ k)

/-- Coerce a number-valued `PyVal` to `ℚ` (the `str`/`dict` cases would be
Python `TypeError`s and are unreached by the embedded code). -/
def pyValToQ : PyVal → ℚ
  | .int n => n
  | .rat q => q
  | .str _ => 0
  | .dict _ => 0

/-- Python `v / d` for a float divisor (true division produces a float). -/
def pyValDivQ (v : PyVal) (d : ℚ) : PyVal := .rat (pyValToQ v / d)

/-- The decimal digits of `n`, most significant first. -/
def natDigits (n : Nat) : PyString := (Nat.toDigits 10 n).map Char.toNat

/-- Helper of `commaGroup`, on least-significant-first digits. -/
def commaGroupAux : PyString → PyString
  | a :: b :: c :: d :: rest => a :: b :: c :: 44 :: commaGroupAux (d :: rest)
  | l => l

/-- Thousands grouping of a digit string (Python's `,` format option). -/
def commaGroup (ds : PyString) : PyString := (commaGroupAux ds.reverse).reverse

/-- Python `str(n)` for an int. -/
def intStr (n : Int) : PyString :=
  if n < 0 then 45 :: natDigits n.natAbs else natDigits n.natAbs

/-- Python `format(n, ",")` for an int. -/
def fmtCommaInt (n : Int) : PyString :=
  if n < 0 then 45 :: commaGroup (natDigits n.natAbs)
  else commaGroup (natDigits n.natAbs)

/-- Pad a digit string with leading zeros to width `w`. -/
def padZeros (w : Nat) (s : PyString) : PyString :=
  List.replicate (w - s.length) 48 ++ s

/-- Round to the nearest integer, ties to even (the rounding used by
Python's fixed-point float formatting). -/
def roundHalfEven (q : ℚ) : Int :=
  if q - ⌊q⌋ < 1 / 2 then ⌊q⌋
  else if (1 : ℚ) / 2 < q - ⌊q⌋ then ⌊q⌋ + 1
  else if Even ⌊q⌋ then ⌊q⌋ else ⌊q⌋ + 1

/-- Python fixed-point formatting `format(q, "[+][,].<prec>f")` on the
exact rational carried by the model. -/
def fmtFixed (q : ℚ) (prec : Nat) (comma forceSign : Bool) : PyString :=
  let scaled := roundHalfEven (q * ((10 : ℚ) ^ prec))
  let mag := scaled.natAbs
  let ip := mag / 10 ^ prec
  let fp := mag % 10 ^ prec
  let sign : PyString :=
    if q < 0 then [45] else if forceSign then [43] else []
  let ipStr := if comma then commaGroup (natDigits ip) else natDigits ip
  sign ++ ipStr ++ (if prec = 0 then [] else 46 :: padZeros prec (natDigits fp))

/-- Python `format(v, ",")`: thousands grouping without a presentation
type.  Valid for numbers; a string raises
`ValueError: Cannot specify ',' with 's'.` — the float branch is an
approximation that no call site reaches (the code applies a bare `,` only
to ints and, buggily, to a fallback string). -/
def formatComma (v : PyVal) : Except PyString PyString :=
  match v with
  | .int n => pure (fmtCommaInt n)
  | .rat q => pure (fmtFixed q 1 true false)
  | .str _ =>
    Except.error (pyStr "ValueError: Cannot specify a comma with type str.")
  | .dict _ =>
    Except.error (pyStr "TypeError: unsupported format string")

/-- Python `format(v, "[+][,].<prec>f")`: fixed-point presentation, valid
for numbers; a string raises a `ValueError` (unknown format code `f`). -/
def formatF (v : PyVal) (prec : Nat) (comma forceSign : Bool) :
    Except PyString PyString :=
  match v with
  | .int n => pure (fmtFixed (n : ℚ) prec comma forceSign)
  | .rat q => pure (fmtFixed q prec comma forceSign)
  | .str _ =>
    Except.error
      (pyStr "ValueError: Unknown format code f for object of type str")
  | .dict _ =>
    Except.error (pyStr "TypeError: unsupported format string")

/-- Python `str(v)` as used in unformatted f-string fields (the float and
dict renderings are repr approximations that no claim observes). -/
def formatPlain : PyVal → PyString
  | .int n => intStr n
  | .rat q => fmtFixed q 1 false false
  | .str s => s
  | .dict _ => pyStr "\x7b...\x7d"

/-- Python's default whitespace set for `str.strip()` (ASCII range). -/
def isPySpace (c : Nat) : Bool :=
  c == 32 || c == 9 || c == 10 || c == 13 || c == 11 || c == 12

/-- Python `s.strip()`. -/
def pyStrip (s : PyString) : PyString :=
  ((s.dropWhile isPySpace).reverse.dropWhile isPySpace).reverse

/-! ## `coingecko_utils.py`: global market data and the sentiment index -/

/-- The `"data"` object of the `/global` payload, reduced to the keys read
(`total_market_cap`/`total_volume`/`market_cap_percentage` reduced to
their `"usd"`/`"btc"`/`"eth"` entries). -/
structure GlobalRaw where
  active_cryptocurrencies : Option Int := none
  markets : Option Int := none
  total_market_cap_usd : Option ℚ := none
  total_volume_usd : Option ℚ := none
  market_cap_change_percentage_24h_usd : Option ℚ := none
  btc_dominance : Option ℚ := none
  eth_dominance : Option ℚ := none

/-- The dict built by `CoinGeckoUtils.get_global_market_data`
(lines 340-361); always fully shaped, hence a structure. -/
structure GlobalMarketData where
  active_cryptocurrencies : Int
  markets : Int
  total_market_cap_usd : ℚ
  total_volume_usd : ℚ
  market_cap_change_percentage_24h : ℚ
  btc_dominance : ℚ
  eth_dominance : ℚ

/-- The `CoinGeckoUtils.get_global_market_data` (lines 340-361): `{}` (`none`)
when the request fails or the payload has no `"data"`. -/
def get_global_market_data (resp : Option GlobalRaw) :
    Option GlobalMarketData :=
  resp.map (fun g =>
    { active_cryptocurrencies := g.active_cryptocurrencies.getD 0,
      markets := g.markets.getD 0,
      total_market_cap_usd := g.total_market_cap_usd.getD 0,
      total_volume_usd := g.total_volume_usd.getD 0,
      market_cap_change_percentage_24h :=
        g.market_cap_change_percentage_24h_usd.getD 0,
      btc_dominance := g.btc_dominance.getD 0,
      eth_dominance := g.eth_dominance.getD 0 })

/-- One entry of the sentiment provider's `"data"` array.  The `value`
field holds the already-converted `int(...)`; a conversion error raises
inside the `try` block and is folded into a failed response. -/
structure FngEntry where
  value : Option Int := none
  value_classification : Option PyString := none
  timestamp : Option PyString := none
  time_until_update : Option PyString := none

/-- The dict built by `CoinGeckoUtils.get_fear_greed_index`
(lines 309-338); always fully shaped. -/
structure FearGreed where
  value : Int
  value_classification : PyString
  timestamp : PyString
  time_until_update : PyString

/-- The `CoinGeckoUtils.get_fear_greed_index` (lines 309-338): any failure —
raised exception, falsy payload, missing `"data"`, empty array — yields
the neutral default `{value 50, "Neutral"}`. -/
def get_fear_greed_index (resp : Option (List FngEntry)) : FearGreed :=
  match resp with
  | some (latest :: _) =>
    { value := latest.value.getD 50,
      value_classification := latest.value_classification.getD
        (pyStr "Neutral"),
      timestamp := latest.timestamp.getD (pyStr ""),
      time_until_update := latest.time_until_update.getD (pyStr "") }
  | _ =>
    { value := 50, value_classification := pyStr "Neutral",
      timestamp := pyStr "", time_until_update := pyStr "" }

/-- The `CoinGeckoUtils.get_global_market_summary` (lines 363-392): formats
the global dict and the sentiment index into the report; a failed global
fetch aborts the whole summary with a placeholder. -/
def get_global_market_summary (gResp : Option GlobalRaw)
    (fResp : Option (List FngEntry)) : PyString :=
  let global_data := get_global_market_data gResp
  let fear_greed := get_fear_greed_index fResp
  match global_data with
  | none => pyStr "Could not fetch global market data"
  | some g =>
    pyStrip
      (pyStr "\n" ++
       pyStr "=== Global Crypto Market Overview ===\n\nTotal Market Cap: $"
       ++ fmtFixed g.total_market_cap_usd 0 true false
       ++ pyStr "\n24h Market Cap Change: "
       ++ fmtFixed g.market_cap_change_percentage_24h 2 false true
       ++ pyStr "%\nTotal 24h Volume: $"
       ++ fmtFixed g.total_volume_usd 0 true false
       ++ pyStr "\n\nMarket Dominance:\n  Bitcoin: "
       ++ fmtFixed g.btc_dominance 2 false false
       ++ pyStr "%\n  Ethereum: "
       ++ fmtFixed g.eth_dominance 2 false false
       ++ pyStr "%\n\nActive Cryptocurrencies: "
       ++ fmtCommaInt g.active_cryptocurrencies
       ++ pyStr "\nActive Markets: "
       ++ fmtCommaInt g.markets
       ++ pyStr "\n\nFear & Greed Index: "
       ++ intStr fear_greed.value
       ++ pyStr "/100 ("
       ++ fear_greed.value_classification
       ++ pyStr ")" ++ pyStr "\n")

/-! ## `onchain_utils.py`: `OnChainUtils` -/

/-- The `blockchain.info/stats` payload, reduced to the keys read. -/
structure BlockchainStatsRaw where
  market_price_usd : Option ℚ := none
  hash_rate : Option ℚ := none
  difficulty : Option Int := none
  total_btc_sent : Option ℚ := none
  n_tx : Option Int := none
  n_blocks_total : Option Int := none
  minutes_between_blocks : Option ℚ := none
  totalbc : Option ℚ := none
  estimated_transaction_volume_usd : Option ℚ := none
  blocks_size : Option Int := none
  miners_revenue_usd : Option ℚ := none
  timestamp : Option Int := none

/-- The `OnChainUtils.get_bitcoin_network_stats` (lines 71-96): `{}` on a
failed request, else the normalized dict (satoshi fields divided by
`1e8`). -/
def get_bitcoin_network_stats (resp : Option BlockchainStatsRaw) : PyDict :=
  match resp with
  | none => []
  | some d =>
    [ (pyStr "market_price_usd", .rat (d.market_price_usd.getD 0)),
      (pyStr "hash_rate", .rat (d.hash_rate.getD 0)),
      (pyStr "difficulty", .int (d.difficulty.getD 0)),
      (pyStr "total_btc_sent", .rat (d.total_btc_sent.getD 0 / 100000000)),
      (pyStr "n_transactions", .int (d.n_tx.getD 0)),
      (pyStr "n_blocks_total", .int (d.n_blocks_total.getD 0)),
      (pyStr "minutes_between_blocks",
        .rat (d.minutes_between_blocks.getD 0)),
      (pyStr "totalbc", .rat (d.totalbc.getD 0 / 100000000)),
      (pyStr "estimated_transaction_volume_usd",
        .rat (d.estimated_transaction_volume_usd.getD 0)),
      (pyStr "blocks_size", .int (d.blocks_size.getD 0)),
      (pyStr "miners_revenue_usd", .rat (d.miners_revenue_usd.getD 0)),
      (pyStr "timestamp", .int (d.timestamp.getD 0)) ]

/-- The `OnChainUtils.get_bitcoin_mempool_info` (lines 98-117): `{}` on any
exception (`resp = none`), else the three-field dict (`0.0005` is the
exact decimal `1/2000`). -/
def get_bitcoin_mempool_info (resp : Option Int) : PyDict :=
  match resp with
  | none => []
  | some unconfirmed_count =>
    [ (pyStr "unconfirmed_transactions", .int unconfirmed_count),
      (pyStr "mempool_size_mb",
        .rat ((unconfirmed_count : ℚ) * (1 / 2000))),
      (pyStr "congestion_level",
        .str (if 10000 < unconfirmed_count then pyStr "High"
              else if unconfirmed_count < 2000 then pyStr "Low"
              else pyStr "Medium")) ]

/-- One entry of the `unconfirmed-transactions` payload's `"txs"` array,
reduced to the keys read (`outValues` is the `"value"` of each `"out"`
item). -/
structure UnconfTx where
  hash : Option PyString := none
  outValues : List (Option ℚ) := []
  time : Option Int := none
  size : Option Int := none

/-- The `tx.get("out", [{}])[0].get("value", 0) / 1e8 if tx.get("out") else 0`
(line 136). -/
def unconfTxValueBtc (t : UnconfTx) : ℚ :=
  match t.outValues with
  | [] => 0
  | v :: _ => v.getD 0 / 100000000

/-- The dict appended per large transaction (lines 139-145); `time` keeps
the raw epoch value (`datetime.fromtimestamp` is presentation only). -/
structure LargeTx where
  hash : PyString
  value_btc : ℚ
  value_usd : ℚ
  time : Int
  size : Int

/-- The `OnChainUtils.get_bitcoin_large_transactions` (lines 119-147): scan
the first 20 unconfirmed transactions and keep those at or above
`min_value_btc`; the fiat value re-fetches the network stats
(`netResp`). -/
def get_bitcoin_large_transactions (utxResp : Option (List UnconfTx))
    (netResp : Option BlockchainStatsRaw) (min_value_btc : ℚ) :
    List LargeTx :=
  match utxResp with
  | none => []
  | some txs =>
    ((txs.take 20).filter (fun t => min_value_btc ≤ unconfTxValueBtc t)).map
      (fun t =>
        { hash := t.hash.getD [],
          value_btc := unconfTxValueBtc t,
          value_usd := unconfTxValueBtc t *
            pyValToQ (pyGet (get_bitcoin_network_stats netResp)
              (pyStr "market_price_usd") (.int 0)),
          time := t.time.getD 0,
          size := t.size.getD 0 })

/-- The gas-oracle `"result"` object, reduced to the keys read.  The gas
price fields hold the already-converted `int(...)` values; `gasUsedR` is
the `"gasUsedRatio"` entry. -/
structure GasOracleRaw where
  SafeGasPrice : Option Int := none
  ProposeGasPrice : Option Int := none
  FastGasPrice : Option Int := none
  suggestBaseFee : Option ℚ := none
  gasUsedR : Option PyString := none

/-- The `OnChainUtils.get_ethereum_gas_stats` (lines 151-181): an `"error"`
dict without a credential; `{}` when the request fails or `"status"` is
not `"1"` (`resp = none`); else the normalized dict. -/
def get_ethereum_gas_stats (hasKey : Bool) (resp : Option GasOracleRaw) :
    PyDict :=
  if !hasKey then
    [(pyStr "error", .str (pyStr "Etherscan API key required"))]
  else
    match resp with
    | none => []
    | some r =>
      [ (pyStr "safe_gas_price", .int (r.SafeGasPrice.getD 0)),
        (pyStr "propose_gas_price", .int (r.ProposeGasPrice.getD 0)),
        (pyStr "fast_gas_price", .int (r.FastGasPrice.getD 0)),
        (pyStr "suggested_base_fee", .rat (r.suggestBaseFee.getD 0)),
        (pyStr "gas_used_ratio", .str (r.gasUsedR.getD [])),
        (pyStr "network_congestion",
          .str (if 50 < r.FastGasPrice.getD 0 then pyStr "High"
                else if r.FastGasPrice.getD 0 < 20 then pyStr "Low"
                else pyStr "Medium")) ]

/-- The `OnChainUtils.get_ethereum_supply_stats` (lines 183-215): an `"error"`
dict without a credential; `{}` when the first request fails or its
`"status"` is not `"1"` (`weiResp = none`); else the dict with the supply
converted from Wei and the staking payload (`stakingResp = none` models a
failed or non-`"1"` second request, giving `{}`). -/
def get_ethereum_supply_stats (hasKey : Bool) (weiResp : Option Int)
    (stakingResp : Option (List (PyString × PyVal))) : PyDict :=
  if !hasKey then
    [(pyStr "error", .str (pyStr "Etherscan API key required"))]
  else
    match weiResp with
    | none => []
    | some wei =>
      [ (pyStr "total_supply_eth",
          .rat ((wei : ℚ) / 1000000000000000000)),
        (pyStr "eth2_staking", .dict (stakingResp.getD [])) ]

/-- The `OnChainUtils.get_on_chain_summary` (lines 219-248): an `"error"` dict
without a credential; else the upstream `"Data"` dict on success
(`resp = some d`) or `{}` on any failure. -/
def get_on_chain_summary (hasKey : Bool) (resp : Option PyDict) : PyDict :=
  if !hasKey then
    [(pyStr "error", .str (pyStr "CryptoCompare API key required"))]
  else resp.getD []

/-- The `"Data"` object of the social-stats payload, reduced to the keys
read. -/
structure SocialRaw where
  reddit_subscribers : Option Int := none
  reddit_active_users : Option Int := none
  reddit_posts_per_day : Option Int := none
  twitter_followers : Option Int := none
  twitter_statuses : Option Int := none

/-- The `OnChainUtils.get_social_stats` (lines 250-287): an `"error"` dict
without a credential; `{}` on any failure; else the normalized dict. -/
def get_social_stats (hasKey : Bool) (resp : Option SocialRaw) : PyDict :=
  if !hasKey then
    [(pyStr "error", .str (pyStr "CryptoCompare API key required"))]
  else
    match resp with
    | none => []
    | some r =>
      [ (pyStr "reddit_subscribers", .int (r.reddit_subscribers.getD 0)),
        (pyStr "reddit_active_users", .int (r.reddit_active_users.getD 0)),
        (pyStr "reddit_posts_per_day", .int (r.reddit_posts_per_day.getD 0)),
        (pyStr "twitter_followers", .int (r.twitter_followers.getD 0)),
        (pyStr "twitter_statuses", .int (r.twitter_statuses.getD 0)) ]

/-- The static coin-ID `mappings` table of `_get_cryptocompare_coin_id`
(lines 299-305). -/
def cryptocompare_mappings : List (PyString × Int) :=
  [ (pyStr "BTC", 1182),
    (pyStr "ETH", 7605),
    (pyStr "SOL", 699785),
    (pyStr "MATIC", 321992),
    (pyStr "AVAX", 893373) ]

/-- The `OnChainUtils._get_cryptocompare_coin_id` (lines 289-307):
`mappings.get(symbol.upper(), 0)` — an unmapped symbol falls back to the
numeric ID `0`. -/
def get_cryptocompare_coin_id (symbol : PyString) : Int :=
  (cryptocompare_mappings.lookup (pyUpper symbol)).getD 0

/-- The `OnChainUtils.get_bitcoin_onchain_summary` (lines 357-397).  The
f-string evaluates its fields in textual order inside `Except`; a
formatting error raised by any field propagates (models the Python
exception). -/
def get_bitcoin_onchain_summary (netResp : Option BlockchainStatsRaw)
    (mResp : Option Int) (utxResp : Option (List UnconfTx)) :
    Except PyString PyString :=
  let network_stats := get_bitcoin_network_stats netResp
  let mempool_info := get_bitcoin_mempool_info mResp
  let large_txs := get_bitcoin_large_transactions utxResp netResp 50
  match network_stats with
  | [] => pure (pyStr "Could not fetch Bitcoin on-chain data")
  | _ :: _ => do
    let v1 ← getItem network_stats (pyStr "hash_rate")
    let p1 ← formatF (pyValDivQ v1 1000000000) 2 false false
    let v2 ← getItem network_stats (pyStr "difficulty")
    let p2 ← formatF v2 0 true false
    let v3 ← getItem network_stats (pyStr "minutes_between_blocks")
    let p3 ← formatF v3 1 false false
    let v4 ← getItem network_stats (pyStr "totalbc")
    let p4 ← formatF v4 2 true false
    let v5 ← getItem network_stats (pyStr "n_transactions")
    let p5 ← formatComma v5
    let v6 ← getItem network_stats
      (pyStr "estimated_transaction_volume_usd")
    let p6 ← formatF v6 0 true false
    let v7 ← getItem network_stats (pyStr "miners_revenue_usd")
    let p7 ← formatF v7 0 true false
    let p8 ← formatComma
      (pyGet mempool_info (pyStr "unconfirmed_transactions")
        (.str (pyStr "N/A")))
    let p9 := formatPlain
      (pyGet mempool_info (pyStr "congestion_level")
        (.str (pyStr "Unknown")))
    let base :=
      pyStr "\n" ++
      pyStr "=== Bitcoin On-Chain Metrics ===\n\nNetwork Health:\n  Hash Rate: "
      ++ p1 ++ pyStr " EH/s\n  Difficulty: "
      ++ p2 ++ pyStr "\n  Avg Block Time: "
      ++ p3 ++ pyStr " minutes\n  Total BTC Mined: "
      ++ p4 ++ pyStr " BTC\n\nTransaction Activity (24h):\n  Total Transactions: "
      ++ p5 ++ pyStr "\n  Volume: $"
      ++ p6 ++ pyStr "\n  Miner Revenue: $"
      ++ p7 ++ pyStr "\n\nMempool Status:\n  Unconfirmed Transactions: "
      ++ p8 ++ pyStr "\n  Network Congestion: "
      ++ p9 ++ pyStr "\n\nWhale Activity (Recent Large Transactions):\n"
    let whale ←
      match large_txs with
      | [] => pure (pyStr "\n  No large transactions detected recently")
      | _ :: _ =>
        ((large_txs.take 5).enumFrom 1).foldlM
          (fun acc p => do
            let s1 ← formatF (.rat p.2.value_btc) 2 false false
            let s2 ← formatF (.rat p.2.value_usd) 0 true false
            pure (acc ++ pyStr "\n  " ++ intStr p.1 ++ pyStr ". " ++ s1
              ++ pyStr " BTC ($" ++ s2 ++ pyStr ")"))
          (pyStr "")
    pure (pyStrip (base ++ whale))

/-- The `OnChainUtils.get_ethereum_onchain_summary` (lines 399-426).  Only the
no-credential `"error"` marker short-circuits; an empty `gas_stats` dict
reaches the f-string, whose first field is a plain `gas_stats[...]`
subscript. -/
def get_ethereum_onchain_summary (hasKey : Bool)
    (gasResp : Option GasOracleRaw) (weiResp : Option Int)
    (stakingResp : Option (List (PyString × PyVal))) :
    Except PyString PyString :=
  let gas_stats := get_ethereum_gas_stats hasKey gasResp
  let supply_stats := get_ethereum_supply_stats hasKey weiResp stakingResp
  match gas_stats.lookup (pyStr "error") with
  | some _ =>
    pure (pyStr "Etherscan API key required for Ethereum on-chain data")
  | none => do
    let v1 ← getItem gas_stats (pyStr "safe_gas_price")
    let v2 ← getItem gas_stats (pyStr "propose_gas_price")
    let v3 ← getItem gas_stats (pyStr "fast_gas_price")
    let v4 ← getItem gas_stats (pyStr "suggested_base_fee")
    let p4 ← formatF v4 2 false false
    let v5 ← getItem gas_stats (pyStr "network_congestion")
    let p6 ← formatF
      (pyGet supply_stats (pyStr "total_supply_eth") (.int 0)) 0 true false
    pure (pyStrip
      (pyStr "\n" ++
       pyStr "=== Ethereum On-Chain Metrics ===\n\nNetwork Activity:\n  Gas Prices (Gwei):\n    Safe: "
       ++ formatPlain v1 ++ pyStr "\n    Standard: "
       ++ formatPlain v2 ++ pyStr "\n    Fast: "
       ++ formatPlain v3 ++ pyStr "\n  Base Fee: "
       ++ p4 ++ pyStr " Gwei\n  Network Congestion: "
       ++ formatPlain v5 ++ pyStr "\n\nSupply Metrics:\n  Total Supply: "
       ++ p6 ++ pyStr " ETH" ++ pyStr "\n"))

/-- The `OnChainUtils.get_general_onchain_summary` (lines 428-459): dispatch
on the uppercased ticker; the generic branch combines the multi-chain and
social fetches and degrades to a `"Limited on-chain data"` placeholder
only when both results are empty (an `"error"` dict is truthy and takes
the summary path with zero-valued defaults). -/
def get_general_onchain_summary (hasCCKey hasEthKey : Bool)
    (netResp : Option BlockchainStatsRaw) (mResp : Option Int)
    (utxResp : Option (List UnconfTx)) (gasResp : Option GasOracleRaw)
    (weiResp : Option Int) (stakingResp : Option (List (PyString × PyVal)))
    (ccResp : Option PyDict) (socResp : Option SocialRaw)
    (symbol : PyString) : Except PyString PyString :=
  if pyUpper symbol = pyStr "BTC" then
    get_bitcoin_onchain_summary netResp mResp utxResp
  else if pyUpper symbol = pyStr "ETH" then
    get_ethereum_onchain_summary hasEthKey gasResp weiResp stakingResp
  else
    let onchain_data := get_on_chain_summary hasCCKey ccResp
    let social_data := get_social_stats hasCCKey socResp
    match onchain_data, social_data with
    | [], [] =>
      pure (pyStr "Limited on-chain data available for " ++ symbol)
    | _, _ => do
      let base := pyStr "=== " ++ pyUpper symbol
        ++ pyStr " On-Chain & Social Metrics ===\n"
      match social_data with
      | [] => pure (pyStrip base)
      | _ :: _ => do
        let p1 ← formatComma
          (pyGet social_data (pyStr "reddit_subscribers") (.int 0))
        let p2 ← formatComma
          (pyGet social_data (pyStr "reddit_active_users") (.int 0))
        let p3 ← formatComma
          (pyGet social_data (pyStr "twitter_followers") (.int 0))
        pure (pyStrip (base
          ++ pyStr "\nSocial Activity:\n  Reddit Subscribers: " ++ p1
          ++ pyStr "\n  Reddit Active Users: " ++ p2
          ++ pyStr "\n  Twitter Followers: " ++ p3 ++ pyStr "\n"))

/-! ## Claim theorems: C5, C8, C9 -/

/-- C5 as stated is false: the aggregator sorts by the raw `published_at`
string, not by a parsed timestamp.  With a single feed source returning an
article dated `Mon, 06 Jan 2025` before one dated `Fri, 10 Jan 2025`, the
output keeps the older article first ("Mon" > "Fri" lexicographically),
although its parsed publication timestamp is strictly smaller — so the
output is not sorted non-increasing by parsed timestamp. -/
theorem claim_C5_counterexample :
    (get_all_crypto_news false none
        (some [⟨some (pyStr "older"), none,
                some (pyStr "Mon, 06 Jan 2025 12:00:00 +0000"), none⟩,
               ⟨some (pyStr "newer"), none,
                some (pyStr "Fri, 10 Jan 2025 12:00:00 +0000"), none⟩])
        none none none none none 5).map (fun a => a.published_at) =
      [pyStr "Mon, 06 Jan 2025 12:00:00 +0000",
       pyStr "Fri, 10 Jan 2025 12:00:00 +0000"] ∧
    specParsedTimestamp (pyStr "Mon, 06 Jan 2025 12:00:00 +0000") =
      some 20250106120000 ∧
    specParsedTimestamp (pyStr "Fri, 10 Jan 2025 12:00:00 +0000") =
      some 20250110120000 ∧
    (20250106120000 : Nat) < 20250110120000 :=
  ⟨by decide, by decide, by decide, by decide⟩

/-- C5 amended: the aggregated list holds at most (number of sources
queried) × `max_per_source` articles, and it is sorted non-increasing by
the raw `published_at` string under lexicographic order (a stable
descending sort on the unparsed key, which never raises); sorting by
parsed timestamp is not performed. -/
theorem claim_C5_cap_and_lex_sort (hasCPKey : Bool)
    (cpResp : Option (List CPItem))
    (ctResp dcResp cdResp tbResp bmResp : Option (List FeedEntry))
    (symbol : Option PyString) (m : Nat) :
    (get_all_crypto_news hasCPKey cpResp ctResp dcResp cdResp tbResp bmResp
        symbol m).length ≤
      ((if hasCPKey then 1 else 0) + 4 +
        (match symbol with
         | some s => if s ≠ [] ∧ pyUpper s = pyStr "BTC" then 1 else 0
         | none => 0)) * m ∧
    List.Sorted newsDescLe
      (get_all_crypto_news hasCPKey cpResp ctResp dcResp cdResp tbResp
        bmResp symbol m) := by
  constructor
  · unfold get_all_crypto_news
    rw [List.length_insertionSort]
    simp only [List.length_append, get_cointelegraph_news, get_decrypt_news,
      get_coindesk_news, get_theblock_news, get_bitcoinmagazine_news]
    have h1 := get_cryptopanic_news_length_le hasCPKey cpResp m
    have h2 := rssArticles_length_le (pyStr "CoinTelegraph") ctResp m
    have h3 := rssArticles_length_le (pyStr "Decrypt") dcResp m
    have h4 := rssArticles_length_le (pyStr "CoinDesk") cdResp m
    have h5 := rssArticles_length_le (pyStr "The Block") tbResp m
    have h6 := rssArticles_length_le (pyStr "Bitcoin Magazine") bmResp m
    cases symbol with
    | none => cases hasCPKey <;> simp_all <;> omega
    | some s =>
      dsimp only
      by_cases hbtc : s ≠ [] ∧ pyUpper s = pyStr "BTC"
      · rw [if_pos hbtc, if_pos hbtc]
        cases hasCPKey <;> simp_all <;> omega
      · rw [if_neg hbtc, if_neg hbtc]
        cases hasCPKey <;> simp_all <;> omega
  · unfold get_all_crypto_news
    haveI : IsTotal Article newsDescLe :=
      ⟨fun a b => lexLe_total b.published_at a.published_at⟩
    haveI : IsTrans Article newsDescLe :=
      ⟨fun _ _ _ h1 h2 => lexLe_trans h2 h1⟩
    exact List.sorted_insertionSort newsDescLe _

/-- C8: an article whose title contains the substring "SEC" in any letter
case is always kept by the regulatory filter, and an article with none of
the fixed keywords in its lowercased title or summary is always dropped. -/
theorem claim_C8_regulatory_filter (articles : List Article) (a : Article)
    (ha : a ∈ articles) :
    ((∃ x v y, a.title = x ++ v ++ y ∧ pyUpper v = pyStr "SEC") →
        a ∈ regulatoryFilterLoop articles) ∧
    ((∀ k ∈ regulatory_keywords,
        containsSub (pyLower a.title) k = false ∧
        containsSub (pyLower a.summary) k = false) →
      a ∉ regulatoryFilterLoop articles) := by
  constructor
  · rintro ⟨x, v, y, htitle, hv⟩
    have hlow : pyLower v = pyStr "sec" := by
      rw [← pyLower_pyUpper, hv]; decide
    have hinf : containsSub (pyLower a.title) (pyStr "sec") = true := by
      apply containsSub_of_infix
      rw [htitle]
      unfold pyLower
      rw [List.map_append, List.map_append]
      exact ⟨pyLower x, pyLower y, by rw [← hlow]; rfl⟩
    unfold regulatoryFilterLoop
    rw [List.mem_filter]
    refine ⟨ha, ?_⟩
    rw [List.any_eq_true]
    exact ⟨pyStr "sec", by decide, by rw [hinf]; rfl⟩
  · intro hnone hmem
    unfold regulatoryFilterLoop at hmem
    rw [List.mem_filter, List.any_eq_true] at hmem
    obtain ⟨_, k, hk, hck⟩ := hmem
    rw [Bool.or_eq_true] at hck
    rcases hck with hck | hck
    · exact absurd hck (by rw [(hnone k hk).1]; simp)
    · exact absurd hck (by rw [(hnone k hk).2]; simp)

/-- Witness for C8: an article titled "sEc sues" is kept; an article with
no keyword anywhere is dropped. -/
theorem claim_C8_witness :
    (⟨pyStr "sEc sues", [], [], [], []⟩ : Article) ∈
      regulatoryFilterLoop [⟨pyStr "sEc sues", [], [], [], []⟩] ∧
    (⟨pyStr "btc rallies", [], [], [], []⟩ : Article) ∉
      regulatoryFilterLoop [⟨pyStr "btc rallies", [], [], [], []⟩] :=
  ⟨(claim_C8_regulatory_filter _ _ (by decide)).1
      ⟨[], pyStr "sEc", pyStr " sues", by decide, by decide⟩,
    (claim_C8_regulatory_filter _ _ (by decide)).2 (by decide)⟩

/-- C9: for two consecutive requests with the same tag, the second dispatch
time is at least the first dispatch time plus the configured minimum
interval; a request's dispatch time depends only on the clock, the
configured interval and its own tag's last-call timestamp; and a request
with one tag never changes another tag's last-call timestamp. -/
theorem claim_C9_rate_limiter :
    (∀ (s s' : RLState) (t : PyString) (ε ε' : ℚ), 0 ≤ ε' →
        dictGetQ s'.last_request_time t = (rate_limit s t ε).2 →
        s'.rate_limit_delay = s.rate_limit_delay →
        (rate_limit s t ε).2 + s.rate_limit_delay ≤ (rate_limit s' t ε').2) ∧
    (∀ (s₁ s₂ : RLState) (t : PyString) (ε : ℚ),
        s₁.clock = s₂.clock → s₁.rate_limit_delay = s₂.rate_limit_delay →
        dictGetQ s₁.last_request_time t = dictGetQ s₂.last_request_time t →
        (rate_limit s₁ t ε).2 = (rate_limit s₂ t ε).2) ∧
    (∀ (s : RLState) (t t' : PyString) (ε : ℚ), t ≠ t' →
        dictGetQ (rate_limit s t ε).1.last_request_time t' =
          dictGetQ s.last_request_time t') := by
  refine ⟨?_, ?_, ?_⟩
  · intro s s' t ε ε' hε' hlast hdelay
    simp only [rate_limit] at hlast ⊢
    rw [hlast, hdelay]
    split_ifs <;> linarith
  · intro s₁ s₂ t ε hclock hdelay hlast
    simp only [rate_limit]
    rw [hclock, hdelay, hlast]
  · intro s t t' ε hne
    simp only [rate_limit, dictSetQ, dictGetQ, List.lookup]
    have : (t' == t) = false := by
      simpa using fun h => hne h.symm
    rw [this]

/-- Witness for C9: with interval 1, a first call at clock 0 dispatches at
time 1 (last tag time 0 means "never called"; `0 - 0 < 1` forces a wait),
and a second call 0.5 later dispatches at 2 ≥ 1 + 1. -/
theorem claim_C9_witness :
    (rate_limit ⟨[], 1, 0⟩ (pyStr "etherscan") 0).2 + (1 : ℚ) ≤
      (rate_limit ⟨[(pyStr "etherscan", 1)], 1, 3/2⟩ (pyStr "etherscan")
        0).2 ∧
    dictGetQ
      (rate_limit ⟨[], 1, 0⟩ (pyStr "etherscan") 0).1.last_request_time
      (pyStr "blockchain.com") =
      dictGetQ ([] : List (PyString × ℚ)) (pyStr "blockchain.com") :=
  ⟨claim_C9_rate_limiter.1 ⟨[], 1, 0⟩ ⟨[(pyStr "etherscan", 1)], 1, 3/2⟩
      (pyStr "etherscan") 0 0 (by norm_num)
      (by norm_num [rate_limit, dictGetQ, List.lookup]) rfl,
    claim_C9_rate_limiter.2.2 ⟨[], 1, 0⟩ (pyStr "etherscan")
      (pyStr "blockchain.com") 0 (by decide)⟩

/-! ## Claim theorems: C1, C4 -/

/-- C1 fails on the code: with a credential configured, a failed gas-oracle
fetch leaves `gas_stats = {}`, and the Ethereum summary's first f-string
field `gas_stats['safe_gas_price']` raises `KeyError`; a failed mempool
fetch leaves `mempool_info = {}`, and the Bitcoin summary formats the
fallback string `'N/A'` with the `,` option, which raises `ValueError` —
both operations raise instead of returning a diagnostic string. -/
theorem claim_C1_summaries_raise :
    (∀ (weiResp : Option Int)
        (stakingResp : Option (List (PyString × PyVal))),
        get_ethereum_onchain_summary true none weiResp stakingResp =
          Except.error (pyStr "KeyError: " ++ pyStr "safe_gas_price")) ∧
    (∀ (raw : BlockchainStatsRaw) (utxResp : Option (List UnconfTx)),
        get_bitcoin_onchain_summary (some raw) none utxResp =
          Except.error (pyStr "ValueError: Cannot specify a comma with type str.")) :=
  ⟨fun _ _ => rfl, fun _ _ => rfl⟩

/-- C4 as stated is false: the multi-chain coin-ID lookup gives the
unmapped symbol "DOGE" the fabricated numeric ID `0` (no explicit
"no mapping" result exists), and without a credential the generic
on-chain fetch for "DOGE" fabricates zero-valued social metrics instead
of a "no mapping" result. -/
theorem claim_C4_counterexample :
    get_cryptocompare_coin_id (pyStr "DOGE") = 0 ∧
    cryptocompare_mappings.lookup (pyUpper (pyStr "DOGE")) = none ∧
    get_general_onchain_summary false false none none none none none none
        none none (pyStr "DOGE") =
      Except.ok (pyStr "=== DOGE On-Chain & Social Metrics ===\n\nSocial Activity:\n  Reddit Subscribers: 0\n  Reddit Active Users: 0\n  Twitter Followers: 0") ∧
    containsSub
      (pyStr "=== DOGE On-Chain & Social Metrics ===\n\nSocial Activity:\n  Reddit Subscribers: 0\n  Reddit Active Users: 0\n  Twitter Followers: 0")
      (pyStr "no mapping") = false :=
  ⟨rfl, rfl, rfl, by decide⟩

/-- C4 amended: an unmapped symbol resolves to the sentinel numeric ID `0`
(never a crash), and with a credential configured but both generic
sub-fetches failing, the generic on-chain summary returns the explicit
`"Limited on-chain data available for <symbol>"` placeholder. -/
theorem claim_C4_unmapped (symbol : PyString) (hasEthKey : Bool)
    (netResp : Option BlockchainStatsRaw) (mResp : Option Int)
    (utxResp : Option (List UnconfTx)) (gasResp : Option GasOracleRaw)
    (weiResp : Option Int) (stakingResp : Option (List (PyString × PyVal)))
    (hmiss : cryptocompare_mappings.lookup (pyUpper symbol) = none)
    (hbtc : pyUpper symbol ≠ pyStr "BTC")
    (heth : pyUpper symbol ≠ pyStr "ETH") :
    get_cryptocompare_coin_id symbol = 0 ∧
    get_general_onchain_summary true hasEthKey netResp mResp utxResp
        gasResp weiResp stakingResp none none symbol =
      Except.ok (pyStr "Limited on-chain data available for " ++ symbol) := by
  constructor
  · unfold get_cryptocompare_coin_id
    rw [hmiss]
    rfl
  · unfold get_general_onchain_summary
    rw [if_neg hbtc, if_neg heth]
    rfl

/-- Witness for C4 amended at "DOGE". -/
theorem claim_C4_witness :
    get_cryptocompare_coin_id (pyStr "DOGE") = 0 ∧
    get_general_onchain_summary true false none none none none none none
        none none (pyStr "DOGE") =
      Except.ok (pyStr "Limited on-chain data available for "
        ++ pyStr "DOGE") :=
  claim_C4_unmapped (pyStr "DOGE") false none none none none none none
    (by decide) (by decide) (by decide)

/-! ## Claim theorems: C2 -/

/-- C2 as stated is false for the market-aggregates half: when the market
sub-call fails, the whole snapshot is replaced by the diagnostic
placeholder — no field (market or sentiment) is populated with a neutral
default, even though the sentiment sub-call succeeded (here with value 30,
"Fear"). -/
theorem claim_C2_counterexample :
    get_global_market_summary none
        (some [⟨some 30, some (pyStr "Fear"), some (pyStr ""),
          some (pyStr "")⟩]) =
      pyStr "Could not fetch global market data" ∧
    containsSub (pyStr "Could not fetch global market data")
      (pyStr "Fear & Greed") = false :=
  ⟨rfl, by decide⟩

/-- C2 amended: when the sentiment sub-call fails (failed request or empty
payload), the global snapshot carries sentiment value 50 and
classification "Neutral" while every market-aggregate field reflects the
successful market sub-call; when the market sub-call fails, the whole
summary degrades to the `"Could not fetch global market data"`
placeholder instead. -/
theorem claim_C2_sentiment_default :
    (∀ (gRaw : GlobalRaw) (fResp : Option (List FngEntry)),
        fResp = none ∨ fResp = some [] →
        get_global_market_summary (some gRaw) fResp =
          pyStr "=== Global Crypto Market Overview ===\n\nTotal Market Cap: $"
          ++ fmtFixed (gRaw.total_market_cap_usd.getD 0) 0 true false
          ++ pyStr "\n24h Market Cap Change: "
          ++ fmtFixed (gRaw.market_cap_change_percentage_24h_usd.getD 0) 2
            false true
          ++ pyStr "%\nTotal 24h Volume: $"
          ++ fmtFixed (gRaw.total_volume_usd.getD 0) 0 true false
          ++ pyStr "\n\nMarket Dominance:\n  Bitcoin: "
          ++ fmtFixed (gRaw.btc_dominance.getD 0) 2 false false
          ++ pyStr "%\n  Ethereum: "
          ++ fmtFixed (gRaw.eth_dominance.getD 0) 2 false false
          ++ pyStr "%\n\nActive Cryptocurrencies: "
          ++ fmtCommaInt (gRaw.active_cryptocurrencies.getD 0)
          ++ pyStr "\nActive Markets: "
          ++ fmtCommaInt (gRaw.markets.getD 0)
          ++ pyStr "\n\nFear & Greed Index: 50/100 (Neutral)") ∧
    (∀ fResp, get_global_market_summary none fResp =
        pyStr "Could not fetch global market data") := by
  constructor
  · intro gRaw fResp hfail
    have hfg : get_fear_greed_index fResp =
        { value := 50, value_classification := pyStr "Neutral",
          timestamp := pyStr "", time_until_update := pyStr "" } := by
      rcases hfail with rfl | rfl <;> rfl
    unfold get_global_market_summary
    rw [hfg]
    dsimp only [get_global_market_data, Option.map_some']
    rw [show (pyStr "\n" : PyString) = [10] from rfl]
    rw [show pyStr "=== Global Crypto Market Overview ===\n\nTotal Market Cap: $" =
        61 :: pyStr "== Global Crypto Market Overview ===\n\nTotal Market Cap: $"
      from rfl]
    rw [show (pyStr ")" : PyString) = [41] from rfl]
    rw [show pyStr "\n\nFear & Greed Index: 50/100 (Neutral)" =
        pyStr "\n\nFear & Greed Index: " ++ intStr 50 ++ pyStr "/100 ("
          ++ pyStr "Neutral" ++ [41] from by decide]
    simp [pyStrip, isPySpace, List.reverse_append, List.append_assoc]
  · intro fResp
    rfl

/-- Witness for C2 amended: an all-default market payload with a failed
sentiment sub-call, and a failed market sub-call. -/
theorem claim_C2_witness :
    get_global_market_summary
        (some (⟨none, none, none, none, none, none, none⟩ : GlobalRaw))
        none =
      pyStr "=== Global Crypto Market Overview ===\n\nTotal Market Cap: $"
      ++ fmtFixed ((none : Option ℚ).getD 0) 0 true false
      ++ pyStr "\n24h Market Cap Change: "
      ++ fmtFixed ((none : Option ℚ).getD 0) 2 false true
      ++ pyStr "%\nTotal 24h Volume: $"
      ++ fmtFixed ((none : Option ℚ).getD 0) 0 true false
      ++ pyStr "\n\nMarket Dominance:\n  Bitcoin: "
      ++ fmtFixed ((none : Option ℚ).getD 0) 2 false false
      ++ pyStr "%\n  Ethereum: "
      ++ fmtFixed ((none : Option ℚ).getD 0) 2 false false
      ++ pyStr "%\n\nActive Cryptocurrencies: "
      ++ fmtCommaInt ((none : Option Int).getD 0)
      ++ pyStr "\nActive Markets: "
      ++ fmtCommaInt ((none : Option Int).getD 0)
      ++ pyStr "\n\nFear & Greed Index: 50/100 (Neutral)" :=
  claim_C2_sentiment_default.1 ⟨none, none, none, none, none, none, none⟩
    none (Or.inl rfl)

end TradingAgentsCrypto
